import Mathlib

/-! Shallow embedding of hw2/src/utils/user_stats.py (class UserStatsUtils)
and verification of its specification.

Modelling conventions:
* Timestamps and the current time (datetime.now()) are integers counting
  seconds; a Python timedelta(days = n) is the integer n * 86400 seconds.
  Comparisons between datetime differences and timedeltas in the source
  become integer comparisons in that unit.
* Python int floor division (//) is Int.fdiv; list index -1 is the last
  element, index 0 the head; in-range positive indices are getD.
* The user_stats property returns a dict that is either empty or has the
  nine statistics keys; it is modelled as Option UserStats, with none
  standing for the empty dict returned at line 76.
* The users property performs file IO and may raise; it is modelled as a
  function from the parse outcome (none = json.JSONDecodeError) to a pair
  of the outcome (the returned list, or which exception was re-raised
  after writing the error object) and the list of error objects written
  to the output file.
* The record-schema validation done by msgspec (an external collaborator
  per the spec) is an arbitrary parameter validate : UserData → Option
  User giving the validated model of a record, or none when the record
  fails validation.
-/

namespace UserStatsModel

/-- Number of seconds in one day: timedelta(days = n) is n * 86400 seconds. -/
def SECONDS_PER_DAY : Int := 86400

/-- A validated user record (schemas.User, treated by the spec as a given
validated-record type): its age and its last-login timestamp. -/
structure User where
  age : Int
  last_login : Int
deriving DecidableEq

/-- Modelled from the spec: the Period enum from hw2/src/enums.py (not under
src/) lists the four offline-duration buckets 2 days, 1 week, 1 month and
6 months. -/
inductive Period where
  | two_days
  | week
  | month
  | half_of_year
deriving DecidableEq

/-- Modelled from the spec: Period.value is the period expressed in days
(hw2/src/enums.py is not under src/; the spec fixes only the four bucket
names, so representative day counts are used — no claim depends on them). -/
def Period.value : Period → Int
  | .two_days => 2
  | .week => 7
  | .month => 30
  | .half_of_year => 180

/-- Raw user-attribute record as parsed from JSON before validation
(a value of the bbtypes.Users mapping; its attribute structure is opaque
to the statistics pipeline). -/
structure UserData where
  attrs : List (String × String)
deriving DecidableEq

/-- Modelled from the spec: create_error_object from hw2/src/utils/common.py
(not under src/) builds a structured error object from a message. -/
structure ErrorObject where
  msg : String
deriving DecidableEq

/-- Modelled from the spec: the structured error object carries the message. -/
def create_error_object (msg : String) : ErrorObject := ⟨msg⟩

/-- Message written when the input JSON fails to parse (line 50). -/
def invalidJsonMsg : String := "Invalid JSON file provided"

/-- Message written when record validation fails (line 60). -/
def validationErrorMsg : String := "Validation error for user items"

/-- Embeds UserStatsUtils.validate_user_models (lines 126-145): validate each
record of the mapping in order; any failure raises msgspec.ValidationError
(modelled none); otherwise return one User model per record, in mapping
order. -/
def validate_user_models (validate : UserData → Option User) :
    List (String × UserData) → Option (List User)
  | [] => some []
  | user_data :: rest =>
    match validate user_data.2 with
    | none => none
    | some u => (validate_user_models validate rest).map (fun us => u :: us)

/-- Outcome of the users property: the returned list, or the exception that
was re-raised after writing the error object. -/
inductive UsersResult where
  | success (users_list : List User)
  | raised_json_decode_error
  | raised_validation_error
deriving DecidableEq

/-- Embeds the users property (lines 31-64). The argument parsed is the
outcome of json.load (none = json.JSONDecodeError). Returns the outcome
together with the error objects dumped to the output file. -/
def users (validate : UserData → Option User)
    (parsed : Option (List (String × UserData))) :
    UsersResult × List ErrorObject :=
  match parsed with
  | none => (UsersResult.raised_json_decode_error, [create_error_object invalidJsonMsg])
  | some users_data =>
    match validate_user_models validate users_data with
    | none => (UsersResult.raised_validation_error, [create_error_object validationErrorMsg])
    | some us => (UsersResult.success us, [])

/-- Embeds UserStatsUtils.user_is_offline_lt_target_period (lines 107-124):
datetime.now() - last_login_date < timedelta(days = target_period.value). -/
def user_is_offline_lt_target_period (now : Int) (user_item : User)
    (target_period : Period) : Bool :=
  decide (now - user_item.last_login < target_period.value * SECONDS_PER_DAY)

/-- Embeds the loop condition of get_gt_half_of_year_offline_users_avg_age
(lines 175-178): datetime.now() - last_login_date > timedelta(days =
Period.half_of_year.value). -/
def user_is_offline_gt_half_of_year (now : Int) (user : User) : Bool :=
  decide (now - user.last_login > Period.half_of_year.value * SECONDS_PER_DAY)

/-- Embeds UserStatsUtils.get_lt_period_offline_users_avg_age (lines 147-164). -/
def get_lt_period_offline_users_avg_age (now : Int) (users_list : List User)
    (target_period : Period) : Int :=
  let filtered_by_offline_period := users_list.filter
    (fun user_item => user_is_offline_lt_target_period now user_item target_period)
  let number_of_users := filtered_by_offline_period.length
  if number_of_users = 0 then 0
  else Int.fdiv ((filtered_by_offline_period.map User.age).sum) number_of_users

/-- Embeds UserStatsUtils.get_gt_half_of_year_offline_users_avg_age
(lines 166-184): the loop collecting ages of users offline strictly more
than half a year becomes filter + map. -/
def get_gt_half_of_year_offline_users_avg_age (now : Int)
    (users_list : List User) : Int :=
  let gt_half_year_offline_users := (users_list.filter
    (fun user => user_is_offline_gt_half_of_year now user)).map User.age
  let number_of_users := gt_half_year_offline_users.length
  if number_of_users = 0 then 0
  else Int.fdiv gt_half_year_offline_users.sum number_of_users

/-- The nine statistics keys of the dict built at lines 86-105. -/
structure UserStats where
  max_age : Int
  min_age : Int
  avg_age : Int
  median_age : Int
  lt_two_days_offline_users_average_age : Int
  lt_week_offline_users_average_age : Int
  lt_month_offline_users_average_age : Int
  lt_half_of_year_offline_users_average_age : Int
  gt_half_of_year_offline_users_average_age : Int
deriving DecidableEq

/-- Embeds the user_stats property (lines 66-105): none models the empty
dict returned at line 76 when all_ages is empty; list index [-1] is
getLastD, [0] is headD, and the in-range median indices are getD. -/
def user_stats (now : Int) (all_ages : List Int) (users_list : List User) :
    Option UserStats :=
  let number_of_users := all_ages.length
  if number_of_users = 0 then none
  else
    let half_num_of_users := number_of_users / 2
    let median_age : Int :=
      if number_of_users % 2 = 0 then
        Int.fdiv (all_ages.getD half_num_of_users 0 +
          all_ages.getD (half_num_of_users - 1) 0) 2
      else all_ages.getD half_num_of_users 0
    some
      { max_age := all_ages.getLastD 0
        min_age := all_ages.headD 0
        avg_age := Int.fdiv all_ages.sum number_of_users
        median_age := median_age
        lt_two_days_offline_users_average_age :=
          get_lt_period_offline_users_avg_age now users_list Period.two_days
        lt_week_offline_users_average_age :=
          get_lt_period_offline_users_avg_age now users_list Period.week
        lt_month_offline_users_average_age :=
          get_lt_period_offline_users_avg_age now users_list Period.month
        lt_half_of_year_offline_users_average_age :=
          get_lt_period_offline_users_avg_age now users_list Period.half_of_year
        gt_half_of_year_offline_users_average_age :=
          get_gt_half_of_year_offline_users_avg_age now users_list }

instance : Std.Antisymm (fun a b : Int => a ≤ b) :=
  ⟨fun hab hba => le_antisymm hab hba⟩

/-! Helper lemmas shared by the claim theorems. -/

theorem user_stats_eq_some (now : Int) (all_ages : List Int) (users_list : List User)
    (hne : all_ages ≠ []) :
    user_stats now all_ages users_list = some
      { max_age := all_ages.getLastD 0
        min_age := all_ages.headD 0
        avg_age := Int.fdiv all_ages.sum all_ages.length
        median_age :=
          if all_ages.length % 2 = 0 then
            Int.fdiv (all_ages.getD (all_ages.length / 2) 0 +
              all_ages.getD (all_ages.length / 2 - 1) 0) 2
          else all_ages.getD (all_ages.length / 2) 0
        lt_two_days_offline_users_average_age :=
          get_lt_period_offline_users_avg_age now users_list Period.two_days
        lt_week_offline_users_average_age :=
          get_lt_period_offline_users_avg_age now users_list Period.week
        lt_month_offline_users_average_age :=
          get_lt_period_offline_users_avg_age now users_list Period.month
        lt_half_of_year_offline_users_average_age :=
          get_lt_period_offline_users_avg_age now users_list Period.half_of_year
        gt_half_of_year_offline_users_average_age :=
          get_gt_half_of_year_offline_users_avg_age now users_list } := by
  have h : all_ages.length ≠ 0 := fun h0 => hne (List.length_eq_zero.mp h0)
  unfold user_stats
  simp [h]

theorem headD_le_of_sorted {l : List Int} (hs : List.Sorted (· ≤ ·) l) :
    ∀ x ∈ l, l.headD 0 ≤ x := by
  cases l with
  | nil => intro x hx; cases hx
  | cons a t =>
    intro x hx
    rcases List.mem_cons.mp hx with rfl | hx
    · exact le_refl x
    · exact (List.sorted_cons.mp hs).1 x hx

theorem le_getLastD_of_sorted : ∀ (l : List Int), List.Sorted (· ≤ ·) l →
    ∀ d : Int, ∀ x ∈ l, x ≤ l.getLastD d := by
  intro l
  induction l with
  | nil => intro _ d x hx; cases hx
  | cons a t ih =>
    intro hs d x hx
    rw [List.getLastD_cons]
    have hs2 := List.sorted_cons.mp hs
    have key : ∀ y ∈ t, y ≤ t.getLastD a := ih hs2.2 a
    rcases List.mem_cons.mp hx with h | hx
    · cases t with
      | nil => subst h; exact le_refl x
      | cons b u => subst h; exact le_trans (hs2.1 b (by simp)) (key b (by simp))
    · exact key x hx

theorem headD_mem {l : List Int} (hne : l ≠ []) : l.headD 0 ∈ l := by
  cases l with
  | nil => exact absurd rfl hne
  | cons a t => exact List.mem_cons_self a t

theorem getLastD_mem : ∀ (l : List Int), l ≠ [] → ∀ d : Int, l.getLastD d ∈ l := by
  intro l
  induction l with
  | nil => intro h; exact absurd rfl h
  | cons a t ih =>
    intro _ d
    rw [List.getLastD_cons]
    cases t with
    | nil => simp
    | cons b u => exact List.mem_cons_of_mem a (ih (by simp) a)

theorem int_min_eq_or (a b : Int) : min a b = a ∨ min a b = b := min_choice a b

theorem int_max_eq_or (a b : Int) : max a b = a ∨ max a b = b := max_choice a b

theorem get_lt_avg_eq_fdiv (now : Int) (us : List User) (p : Period)
    (hne : us.filter (fun u => user_is_offline_lt_target_period now u p) ≠ []) :
    get_lt_period_offline_users_avg_age now us p =
      Int.fdiv
        (((us.filter (fun v => user_is_offline_lt_target_period now v p)).map User.age).sum)
        ((us.filter (fun v => user_is_offline_lt_target_period now v p)).length) := by
  have hlen : (us.filter (fun u => user_is_offline_lt_target_period now u p)).length ≠ 0 :=
    fun h0 => hne (List.length_eq_zero.mp h0)
  unfold get_lt_period_offline_users_avg_age
  simp [hlen]

theorem get_gt_avg_eq_fdiv (now : Int) (us : List User)
    (hne : us.filter (fun u => user_is_offline_gt_half_of_year now u) ≠ []) :
    get_gt_half_of_year_offline_users_avg_age now us =
      Int.fdiv
        (((us.filter (fun v => user_is_offline_gt_half_of_year now v)).map User.age).sum)
        ((us.filter (fun v => user_is_offline_gt_half_of_year now v)).length) := by
  have hlen : (us.filter (fun u => user_is_offline_gt_half_of_year now u)).length ≠ 0 :=
    fun h0 => hne (List.length_eq_zero.mp h0)
  unfold get_gt_half_of_year_offline_users_avg_age
  simp [hlen]

theorem validate_user_models_nil (validate : UserData → Option User) :
    validate_user_models validate [] = some [] := rfl

theorem validate_user_models_cons_none (validate : UserData → Option User)
    (q : String × UserData) (rest : List (String × UserData))
    (hq : validate q.2 = none) :
    validate_user_models validate (q :: rest) = none := by
  simp only [validate_user_models, hq]

theorem validate_user_models_cons_some (validate : UserData → Option User)
    (q : String × UserData) (rest : List (String × UserData)) (u : User)
    (hq : validate q.2 = some u) :
    validate_user_models validate (q :: rest) =
      (validate_user_models validate rest).map (fun us => u :: us) := by
  simp only [validate_user_models, hq]

theorem validate_user_models_none_iff (validate : UserData → Option User)
    (users_data : List (String × UserData)) :
    validate_user_models validate users_data = none ↔
      ∃ q ∈ users_data, validate q.2 = none := by
  induction users_data with
  | nil => simp [validate_user_models_nil]
  | cons q rest ih =>
    cases hq : validate q.2 with
    | none =>
      rw [validate_user_models_cons_none validate q rest hq]
      exact iff_of_true rfl ⟨q, List.mem_cons_self q rest, hq⟩
    | some u =>
      rw [validate_user_models_cons_some validate q rest u hq,
        Option.map_eq_none', ih]
      constructor
      · rintro ⟨x, hx, hvx⟩
        exact ⟨x, List.mem_cons_of_mem q hx, hvx⟩
      · rintro ⟨x, hx, hvx⟩
        rcases List.mem_cons.mp hx with heq | hx2
        · subst heq
          rw [hq] at hvx
          exact Option.noConfusion hvx
        · exact ⟨x, hx2, hvx⟩

theorem validate_user_models_map_some (validate : UserData → Option User) :
    ∀ (users_data : List (String × UserData)) (us : List User),
      validate_user_models validate users_data = some us →
      us.map some = users_data.map (fun q => validate q.2) := by
  intro users_data
  induction users_data with
  | nil =>
    intro us h
    rw [validate_user_models_nil] at h
    cases h
    rfl
  | cons q rest ih =>
    intro us h
    cases hq : validate q.2 with
    | none =>
      rw [validate_user_models_cons_none validate q rest hq] at h
      exact Option.noConfusion h
    | some u =>
      rw [validate_user_models_cons_some validate q rest u hq] at h
      cases hr : validate_user_models validate rest with
      | none =>
        rw [hr] at h
        exact Option.noConfusion h
      | some us2 =>
        rw [hr] at h
        cases h
        simp only [List.map_cons, hq]
        rw [ih us2 hr]

/-! Claim theorems. -/

/-- C1 counterexample: at all_ages = [3, 1] (not sorted ascending) user_stats
returns min_age = 3 and max_age = 1, while the minimum element of [3, 1] is 1
and the maximum element is 3; so the claim, which asks this of every
non-empty all_ages list, fails. -/
theorem user_stats_min_max_counterexample :
    ((user_stats 0 [3, 1] []).map UserStats.min_age = some 3 ∧
      ([3, 1] : List Int).min? = some 1 ∧
      (user_stats 0 [3, 1] []).map UserStats.min_age ≠ ([3, 1] : List Int).min?) ∧
    ((user_stats 0 [3, 1] []).map UserStats.max_age = some 1 ∧
      ([3, 1] : List Int).max? = some 3 ∧
      (user_stats 0 [3, 1] []).map UserStats.max_age ≠ ([3, 1] : List Int).max?) := by
  decide

/-- C1 (amended): when the non-empty all_ages list is sorted ascending,
user_stats maps min_age to the minimum element of all_ages and max_age to
the maximum element (the code returns the first element as min_age and the
last as max_age). -/
theorem user_stats_min_max_of_sorted (now : Int) (all_ages : List Int)
    (users_list : List User) (hne : all_ages ≠ [])
    (hs : List.Sorted (· ≤ ·) all_ages) :
    (user_stats now all_ages users_list).map UserStats.min_age = all_ages.min? ∧
    (user_stats now all_ages users_list).map UserStats.max_age = all_ages.max? := by
  have hmin : all_ages.min? = some (all_ages.headD 0) :=
    (List.min?_eq_some_iff (fun a => le_refl a) int_min_eq_or
      (fun a b c => le_min_iff)).mpr ⟨headD_mem hne, headD_le_of_sorted hs⟩
  have hmax : all_ages.max? = some (all_ages.getLastD 0) :=
    (List.max?_eq_some_iff (fun a => le_refl a) int_max_eq_or
      (fun a b c => max_le_iff)).mpr
      ⟨getLastD_mem all_ages hne 0, le_getLastD_of_sorted all_ages hs 0⟩
  rw [user_stats_eq_some now all_ages users_list hne, hmin, hmax]
  exact ⟨rfl, rfl⟩

/-- Witness for the amended C1 at the sorted list [1, 2, 3]. -/
theorem user_stats_min_max_of_sorted_witness :
    (user_stats 0 [1, 2, 3] []).map UserStats.min_age = ([1, 2, 3] : List Int).min? ∧
    (user_stats 0 [1, 2, 3] []).map UserStats.max_age = ([1, 2, 3] : List Int).max? :=
  user_stats_min_max_of_sorted 0 [1, 2, 3] [] (by decide)
    (by simp [List.sorted_cons])

/-- C2: for non-empty all_ages, median_age is the middle element of all_ages
(index length / 2) when the count is odd, and the floor (integer division by
2) of the average of the two middle elements (indices length / 2 - 1 and
length / 2) when the count is even; both indices are in range. -/
theorem user_stats_median_age (now : Int) (all_ages : List Int)
    (users_list : List User) (hne : all_ages ≠ []) :
    (user_stats now all_ages users_list).map UserStats.median_age =
      some (if all_ages.length % 2 = 0 then
              Int.fdiv (all_ages.getD (all_ages.length / 2) 0 +
                all_ages.getD (all_ages.length / 2 - 1) 0) 2
            else all_ages.getD (all_ages.length / 2) 0) ∧
    all_ages.length / 2 < all_ages.length ∧
    all_ages.length / 2 - 1 < all_ages.length := by
  have hpos : 0 < all_ages.length := List.length_pos.mpr hne
  have hlt : all_ages.length / 2 < all_ages.length := Nat.div_lt_self hpos (by decide)
  refine ⟨?_, hlt, lt_of_le_of_lt (Nat.sub_le _ 1) hlt⟩
  rw [user_stats_eq_some now all_ages users_list hne]
  rfl

/-- Witness for C2: at all_ages = [5, 1, 4] (odd count) the median is the
middle element 1; at [3, 1] (even count) it is (1 + 3) fdiv 2 = 2. -/
theorem user_stats_median_age_witness :
    (user_stats 0 [5, 1, 4] []).map UserStats.median_age = some 1 ∧
    (user_stats 0 [3, 1] []).map UserStats.median_age = some 2 := by
  have h1 := user_stats_median_age 0 [5, 1, 4] [] (by decide)
  have h2 := user_stats_median_age 0 [3, 1] [] (by decide)
  exact ⟨h1.1.trans (by decide), h2.1.trans (by decide)⟩

/-- C3: on JSON parse failure (parsed = none) the users property writes the
structured error object to the output file and the outcome is the re-raised
json.JSONDecodeError, so the failure propagates to the caller. -/
theorem users_json_decode_error_propagates (validate : UserData → Option User) :
    users validate none =
      (UsersResult.raised_json_decode_error, [create_error_object invalidJsonMsg]) := rfl

/-- C4: each record of the parsed mapping is validated against the schema in
mapping order; validation of the whole mapping fails exactly when some record
fails, in which case the structured error object is written to the output
file and the outcome is the re-raised msgspec.ValidationError; when every
record validates, the users property returns one User model per record of
the mapping, in mapping order, writing nothing. -/
theorem users_validation_behavior (validate : UserData → Option User)
    (users_data : List (String × UserData)) :
    (validate_user_models validate users_data = none ↔
        ∃ q ∈ users_data, validate q.2 = none) ∧
    (∀ us : List User, validate_user_models validate users_data = some us →
        us.map some = users_data.map (fun q => validate q.2)) ∧
    (validate_user_models validate users_data = none →
        users validate (some users_data) =
          (UsersResult.raised_validation_error,
            [create_error_object validationErrorMsg])) ∧
    (∀ us : List User, validate_user_models validate users_data = some us →
        users validate (some users_data) = (UsersResult.success us, [])) := by
  refine ⟨validate_user_models_none_iff validate users_data,
    fun us h => validate_user_models_map_some validate users_data us h, ?_, ?_⟩
  · intro h
    simp only [users, h]
  · intro us h
    simp only [users, h]

/-- Witness for C4: a validator accepting exactly records with no attributes,
run on a mapping with a failing record and on a mapping where every record
validates. -/
theorem users_validation_behavior_witness :
    users (fun d => if d.attrs = [] then some ⟨1, 0⟩ else none)
      (some [("a", ⟨[]⟩), ("b", ⟨[("x", "y")]⟩)]) =
      (UsersResult.raised_validation_error,
        [create_error_object validationErrorMsg]) ∧
    users (fun d => if d.attrs = [] then some ⟨1, 0⟩ else none)
      (some [("a", ⟨[]⟩)]) = (UsersResult.success [⟨1, 0⟩], []) := by
  have h1 := users_validation_behavior
    (fun d => if d.attrs = [] then some ⟨1, 0⟩ else none)
    [("a", ⟨[]⟩), ("b", ⟨[("x", "y")]⟩)]
  have h2 := users_validation_behavior
    (fun d => if d.attrs = [] then some ⟨1, 0⟩ else none)
    [("a", ⟨[]⟩)]
  exact ⟨h1.2.2.1 (by decide), h2.2.2.2 [⟨1, 0⟩] (by decide)⟩

/-- C5: every average is computed with integer floor division: avg_age is the
floor of the sum of all_ages divided by the number of users, and each
non-empty bucket average is the floor of the bucket's age sum divided by the
bucket's size. -/
theorem averages_use_floor_division (now : Int) (all_ages : List Int)
    (us : List User) (p : Period) (hne : all_ages ≠ [])
    (hlt : us.filter (fun u => user_is_offline_lt_target_period now u p) ≠ [])
    (hgt : us.filter (fun u => user_is_offline_gt_half_of_year now u) ≠ []) :
    (user_stats now all_ages us).map UserStats.avg_age =
      some (Int.fdiv all_ages.sum all_ages.length) ∧
    get_lt_period_offline_users_avg_age now us p =
      Int.fdiv
        (((us.filter (fun v => user_is_offline_lt_target_period now v p)).map User.age).sum)
        ((us.filter (fun v => user_is_offline_lt_target_period now v p)).length) ∧
    get_gt_half_of_year_offline_users_avg_age now us =
      Int.fdiv
        (((us.filter (fun v => user_is_offline_gt_half_of_year now v)).map User.age).sum)
        ((us.filter (fun v => user_is_offline_gt_half_of_year now v)).length) := by
  refine ⟨?_, get_lt_avg_eq_fdiv now us p hlt, get_gt_avg_eq_fdiv now us hgt⟩
  rw [user_stats_eq_some now all_ages us hne]
  rfl

/-- Witness for C5: ages [5, 1, 4] give avg_age 10 fdiv 3 = 3; the two-days
bucket holds the age-10 user and the half-year bucket the age-20 user. -/
theorem averages_use_floor_division_witness :
    (user_stats 86400 [5, 1, 4] [⟨10, 0⟩, ⟨20, -17280000⟩]).map UserStats.avg_age =
      some 3 ∧
    get_lt_period_offline_users_avg_age 86400 [⟨10, 0⟩, ⟨20, -17280000⟩]
      Period.two_days = 10 ∧
    get_gt_half_of_year_offline_users_avg_age 86400
      [⟨10, 0⟩, ⟨20, -17280000⟩] = 20 := by
  have h := averages_use_floor_division 86400 [5, 1, 4]
    [⟨10, 0⟩, ⟨20, -17280000⟩] Period.two_days (by decide) (by decide) (by decide)
  exact ⟨h.1.trans (by decide), h.2.1.trans (by decide), h.2.2.trans (by decide)⟩

/-- C6: a user counts as offline for less than the target period exactly when
the offline duration (now minus last-login timestamp) is strictly less than
the period expressed in days, and get_lt_period_offline_users_avg_age
averages (floor division) the ages of exactly the users satisfying this
predicate. -/
theorem offline_lt_bucket_avg (now : Int) (p : Period) (us : List User)
    (hne : us.filter (fun u => user_is_offline_lt_target_period now u p) ≠ []) :
    (∀ u : User, user_is_offline_lt_target_period now u p = true ↔
        now - u.last_login < p.value * SECONDS_PER_DAY) ∧
    (∀ u : User,
        u ∈ us.filter (fun v => user_is_offline_lt_target_period now v p) ↔
        u ∈ us ∧ now - u.last_login < p.value * SECONDS_PER_DAY) ∧
    get_lt_period_offline_users_avg_age now us p =
      Int.fdiv
        (((us.filter (fun v => user_is_offline_lt_target_period now v p)).map User.age).sum)
        ((us.filter (fun v => user_is_offline_lt_target_period now v p)).length) := by
  refine ⟨?_, ?_, get_lt_avg_eq_fdiv now us p hne⟩
  · intro u
    simp [user_is_offline_lt_target_period]
  · intro u
    rw [List.mem_filter]
    simp [user_is_offline_lt_target_period]

/-- Witness for C6: at now = 1 day, the user last seen at time 0 is in the
two-days bucket and the bucket average is its age. -/
theorem offline_lt_bucket_avg_witness :
    user_is_offline_lt_target_period 86400 ⟨10, 0⟩ Period.two_days = true ∧
    (⟨10, 0⟩ : User) ∈ ([⟨10, 0⟩, ⟨20, -17280000⟩] : List User).filter
      (fun v => user_is_offline_lt_target_period 86400 v Period.two_days) ∧
    get_lt_period_offline_users_avg_age 86400 [⟨10, 0⟩, ⟨20, -17280000⟩]
      Period.two_days = 10 := by
  have h := offline_lt_bucket_avg 86400 Period.two_days
    [⟨10, 0⟩, ⟨20, -17280000⟩] (by decide)
  exact ⟨(h.1 ⟨10, 0⟩).mpr (by decide),
    (h.2.1 ⟨10, 0⟩).mpr (by decide), h.2.2.trans (by decide)⟩

/-- C7: get_gt_half_of_year_offline_users_avg_age averages (floor division)
the ages of exactly the users whose offline duration is strictly greater
than the half-of-year period expressed in days. -/
theorem offline_gt_bucket_avg (now : Int) (us : List User)
    (hne : us.filter (fun u => user_is_offline_gt_half_of_year now u) ≠ []) :
    (∀ u : User,
        u ∈ us.filter (fun v => user_is_offline_gt_half_of_year now v) ↔
        u ∈ us ∧ now - u.last_login > Period.half_of_year.value * SECONDS_PER_DAY) ∧
    get_gt_half_of_year_offline_users_avg_age now us =
      Int.fdiv
        (((us.filter (fun v => user_is_offline_gt_half_of_year now v)).map User.age).sum)
        ((us.filter (fun v => user_is_offline_gt_half_of_year now v)).length) := by
  refine ⟨?_, get_gt_avg_eq_fdiv now us hne⟩
  intro u
  rw [List.mem_filter]
  simp [user_is_offline_gt_half_of_year]

/-- Witness for C7: at now = 1 day, the user last seen 200 days before time
zero is in the more-than-half-a-year bucket and the bucket average is its
age. -/
theorem offline_gt_bucket_avg_witness :
    (⟨20, -17280000⟩ : User) ∈ ([⟨10, 0⟩, ⟨20, -17280000⟩] : List User).filter
      (fun v => user_is_offline_gt_half_of_year 86400 v) ∧
    get_gt_half_of_year_offline_users_avg_age 86400
      [⟨10, 0⟩, ⟨20, -17280000⟩] = 20 := by
  have h := offline_gt_bucket_avg 86400 [⟨10, 0⟩, ⟨20, -17280000⟩] (by decide)
  exact ⟨(h.1 ⟨20, -17280000⟩).mpr (by decide), h.2.trans (by decide)⟩

/-- C8: if all_ages is empty, the user_stats property returns the empty dict
(modelled as none), not a statistics record and not an error. -/
theorem user_stats_empty_ages (now : Int) (users_list : List User) :
    user_stats now ([] : List Int) users_list = none := rfl

/-- C9: for every bucket, an empty bucket yields average 0 directly instead
of dividing: get_lt_period_offline_users_avg_age returns 0 when no user
passes the filter, and so does get_gt_half_of_year_offline_users_avg_age,
so the divisions are only reached with a non-zero divisor. -/
theorem empty_bucket_avg_age_zero (now : Int) (users_list : List User) :
    (∀ p : Period,
       users_list.filter (fun u => user_is_offline_lt_target_period now u p) = [] →
       get_lt_period_offline_users_avg_age now users_list p = 0) ∧
    (users_list.filter (fun u => user_is_offline_gt_half_of_year now u) = [] →
       get_gt_half_of_year_offline_users_avg_age now users_list = 0) := by
  constructor
  · intro p h
    unfold get_lt_period_offline_users_avg_age
    simp [h]
  · intro h
    unfold get_gt_half_of_year_offline_users_avg_age
    simp [h]

/-- Witness for C9 at the empty user list. -/
theorem empty_bucket_avg_age_zero_witness :
    get_lt_period_offline_users_avg_age 0 [] Period.week = 0 ∧
    get_gt_half_of_year_offline_users_avg_age 0 [] = 0 := by
  have h := empty_bucket_avg_age_zero 0 []
  exact ⟨h.1 Period.week (by decide), h.2 (by decide)⟩

/-- C10: a user whose offline duration equals exactly the half-of-year period
satisfies neither strict membership comparison, so it is counted in neither
the less-than-six-months bucket nor the more-than-six-months bucket (its
count in either filtered list is 0). -/
theorem half_year_boundary_in_neither_bucket (now : Int) (u : User)
    (h : now - u.last_login = Period.half_of_year.value * SECONDS_PER_DAY) :
    user_is_offline_lt_target_period now u Period.half_of_year = false ∧
    user_is_offline_gt_half_of_year now u = false ∧
    ∀ users_list : List User,
      (users_list.filter
        (fun v => user_is_offline_lt_target_period now v Period.half_of_year)).count u = 0 ∧
      (users_list.filter
        (fun v => user_is_offline_gt_half_of_year now v)).count u = 0 := by
  have hlt : user_is_offline_lt_target_period now u Period.half_of_year = false := by
    simp [user_is_offline_lt_target_period, h]
  have hgt : user_is_offline_gt_half_of_year now u = false := by
    simp [user_is_offline_gt_half_of_year, h]
  refine ⟨hlt, hgt, fun users_list => ⟨?_, ?_⟩⟩
  · rw [List.count_eq_zero]
    intro hmem
    have hpu := (List.mem_filter.mp hmem).2
    rw [hlt] at hpu
    exact Bool.noConfusion hpu
  · rw [List.count_eq_zero]
    intro hmem
    have hpu := (List.mem_filter.mp hmem).2
    rw [hgt] at hpu
    exact Bool.noConfusion hpu

/-- Witness for C10: now = 15552000 = 180 days in seconds and last_login = 0. -/
theorem half_year_boundary_in_neither_bucket_witness :
    user_is_offline_lt_target_period 15552000 ⟨25, 0⟩ Period.half_of_year = false ∧
    user_is_offline_gt_half_of_year 15552000 ⟨25, 0⟩ = false ∧
    (([⟨25, 0⟩] : List User).filter
      (fun v => user_is_offline_lt_target_period 15552000 v Period.half_of_year)).count
        ⟨25, 0⟩ = 0 ∧
    (([⟨25, 0⟩] : List User).filter
      (fun v => user_is_offline_gt_half_of_year 15552000 v)).count ⟨25, 0⟩ = 0 := by
  have h := half_year_boundary_in_neither_bucket 15552000 ⟨25, 0⟩ (by decide)
  exact ⟨h.1, h.2.1, (h.2.2 [⟨25, 0⟩]).1, (h.2.2 [⟨25, 0⟩]).2⟩

end UserStatsModel
